import Mathlib

/-!
Verification of `weather_analysis`: the parameter validator and response
reshaper of `get_historical_weather_at_given_coordinates`
(src/scraper/get_historical_from_open-meteo.py), shallowly embedded.
Python floats are modelled as rationals plus an explicit NaN (IEEE
comparisons with NaN are false); the Python stdlib and pandas helpers the
function calls (`datetime.date.fromisoformat`, `pd.date_range`,
`pd.DataFrame`) are modelled from their documented behaviour.
-/

deriving instance DecidableEq for Except

/-- A Python `datetime.date`: a Gregorian calendar date. -/
structure PyDate where
  year : Nat
  month : Nat
  day : Nat
deriving DecidableEq, Repr

/-- Gregorian leap-year rule, as used by Python's `datetime`. -/
def isLeapYear (y : Nat) : Bool :=
  y % 4 == 0 && (y % 100 != 0 || y % 400 == 0)

/-- Number of days in a given month of a given year (Gregorian). -/
def daysInMonth (y m : Nat) : Nat :=
  if m == 2 then (if isLeapYear y then 29 else 28)
  else if m == 4 || m == 6 || m == 9 || m == 11 then 30
  else 31

/-- Numeric value of a decimal digit character. -/
def digitVal (c : Char) : Nat := c.toNat - '0'.toNat

/-- Models Python `datetime.date.fromisoformat`: accepts exactly the
ISO-8601 calendar-date form `YYYY-MM-DD` (four digits, dash, two digits,
dash, two digits) denoting a valid Gregorian date with year at least 1;
every other string raises `ValueError`, modelled as `none`. -/
def dateFromIsoformat (s : String) : Option PyDate :=
  match s.toList with
  | [y1, y2, y3, y4, c1, m1, m2, c2, d1, d2] =>
    if c1 == '-' && c2 == '-'
        && [y1, y2, y3, y4, m1, m2, d1, d2].all Char.isDigit then
      let y := 1000 * digitVal y1 + 100 * digitVal y2 + 10 * digitVal y3 + digitVal y4
      let m := 10 * digitVal m1 + digitVal m2
      let d := 10 * digitVal d1 + digitVal d2
      if 1 ≤ y ∧ 1 ≤ m ∧ m ≤ 12 ∧ 1 ≤ d ∧ d ≤ daysInMonth y m then
        some ⟨y, m, d⟩
      else none
    else none
  | _ => none

/-- Python `date` comparison: lexicographic on (year, month, day). -/
def dateLtB (a b : PyDate) : Bool :=
  if a.year < b.year then true
  else if b.year < a.year then false
  else if a.month < b.month then true
  else if b.month < a.month then false
  else decide (a.day < b.day)

/-- A Python float as far as the validator observes it: either NaN or a
finite value, modelled as a rational. -/
inductive PyFloat where
  | nan : PyFloat
  | val : ℚ → PyFloat
deriving DecidableEq, Repr

/-- IEEE `<` as Python evaluates it on floats: any comparison with NaN is
false. -/
def PyFloat.lt : PyFloat → PyFloat → Bool
  | .val a, .val b => decide (a < b)
  | _, _ => false

/-- IEEE `>` as Python evaluates it on floats: any comparison with NaN is
false. -/
def PyFloat.gt : PyFloat → PyFloat → Bool
  | .val a, .val b => decide (b < a)
  | _, _ => false

/-- Message of the `InvalidParameters` raised for an out-of-range latitude. -/
def latitudeRangeMsg : String :=
  "Invalid latitude given! Latitude must be within -90 to 90"

/-- Message of the `InvalidParameters` raised for an out-of-range longitude. -/
def longitudeRangeMsg : String :=
  "Invalid longitude given! Longitude must be within 0 to 180"

/-- Message of the `InvalidParameters` raised when a date string fails to
parse; the Python source interpolates both input strings into it. -/
def dateFormatMsg (start_date end_date : String) : String :=
  "Invalid start_date " ++ start_date ++ " or end_date " ++ end_date ++
    " found. Please given the start and end dates in ISO format, i.e. YYYY-MM-DD"

/-- Message of the `InvalidParameters` raised when end date precedes start. -/
def dateOrderMsg : String := "End date cannot be before start date!"

/-- The validation block of `get_historical_weather_at_given_coordinates`
(lines 69-90): latitude range check, then longitude range check, then ISO
parsing of both date strings, then the ordering check; the first failing
check raises `InvalidParameters` (modelled as `.error` carrying the
message) and on success the parsed dates are available. -/
def validateParams (latitude longitude : PyFloat)
    (start_date end_date : String) : Except String (PyDate × PyDate) :=
  if latitude.lt (.val (-90)) || latitude.gt (.val 90) then
    .error latitudeRangeMsg
  else if longitude.lt (.val 0) || longitude.gt (.val 180) then
    .error longitudeRangeMsg
  else
    match dateFromIsoformat start_date with
    | none => .error (dateFormatMsg start_date end_date)
    | some start_date_parsed =>
      match dateFromIsoformat end_date with
      | none => .error (dateFormatMsg start_date end_date)
      | some end_date_parsed =>
        if dateLtB end_date_parsed start_date_parsed then
          .error dateOrderMsg
        else
          .ok (start_date_parsed, end_date_parsed)

/-- The hourly block of an Open-Meteo archive response, as the code reads
it: `hourly.Time()`, `hourly.TimeEnd()`, `hourly.Interval()` (unix seconds)
and `hourly.Variables(i).ValuesAsNumpy()` as a positional list of value
arrays (field `hourlyVars`). -/
structure HourlyResponse where
  time : Int
  timeEnd : Int
  interval : Int
  hourlyVars : List (List ℚ)
deriving DecidableEq, Repr

/-- Number of timestamps produced by `pd.date_range(start, end, freq,
inclusive="left")`: all grid points `start + k*step` up to `end`, with
`end` itself excluded when it lies on the grid. -/
def pdDateRangeLeftCount (start stop step : Int) : Nat :=
  if stop ≤ start then 0
  else if (stop - start) % step = 0 then ((stop - start) / step).toNat
  else ((stop - start) / step).toNat + 1

/-- Models `pd.date_range(start=.., end=.., freq=.., inclusive="left")`
on unix-second timestamps. -/
def pdDateRangeLeft (start stop step : Int) : List Int :=
  (List.range (pdDateRangeLeftCount start stop step)).map
    (fun i : Nat => start + (i : Int) * step)

/-- The table the function returns: the synthesized `date` column plus
named numeric columns. -/
structure DataFrame where
  dateCol : List Int
  cols : List (String × List ℚ)
deriving DecidableEq, Repr

/-- Column names of the table, in order: `date` first, then the named
columns. -/
def DataFrame.columnNames (df : DataFrame) : List String :=
  "date" :: df.cols.map Prod.fst

/-- Models `pd.DataFrame(data=dict)` over equal-length columns: pandas
raises `ValueError` when the column arrays differ in length, and otherwise
assembles the table with no truncation or padding. -/
def mkDataFrame (dates : List Int) (cols : List (String × List ℚ)) :
    Except String DataFrame :=
  if cols.all (fun c => c.2.length == dates.length) then
    .ok ⟨dates, cols⟩
  else
    .error "All arrays must be of the same length"

/-- The reshape block of `get_historical_weather_at_given_coordinates`
(lines 113-131): reads `hourly.Variables(0)`, `Variables(1)`,
`Variables(2)` (an absent index raises, modelled as `.error`), synthesizes
the `date` column with `pd.date_range(Time(), TimeEnd(), Interval(),
inclusive="left")`, and assembles the DataFrame with the hardcoded column
names `snowfall`, `wind_speed_10m`, `wind_gusts_10m`. -/
def reshapeHourly (resp : HourlyResponse) : Except String DataFrame :=
  match resp.hourlyVars[0]?, resp.hourlyVars[1]?, resp.hourlyVars[2]? with
  | some hourly_snowfall, some hourly_wind_speed_10m, some hourly_wind_gusts_10m =>
    mkDataFrame (pdDateRangeLeft resp.time resp.timeEnd resp.interval)
      [("snowfall", hourly_snowfall),
       ("wind_speed_10m", hourly_wind_speed_10m),
       ("wind_gusts_10m", hourly_wind_gusts_10m)]
  | _, _, _ => .error "hourly variable index out of range"

/-- `get_historical_weather_at_given_coordinates`, with the network call
abstracted: the provider's hourly response is passed in as `resp`, and
`fields` is forwarded to the provider request but — exactly as in the
source — never consulted when the response is reshaped. Validation runs
first; its error is returned before the response is touched. -/
def get_historical_weather_at_given_coordinates
    (latitude longitude : PyFloat) (start_date end_date : String)
    (fields : List String) (resp : HourlyResponse) :
    Except String DataFrame :=
  match validateParams latitude longitude start_date end_date with
  | .error m => .error m
  | .ok _ =>
    let _ := fields
    reshapeHourly resp

/-- `key` occurs verbatim inside `msg`. -/
def strContains (msg key : String) : Prop :=
  ∃ p q, msg = p ++ (key ++ q)

example : dateFromIsoformat "2024-01-01" = some ⟨2024, 1, 1⟩ := by decide
example : dateFromIsoformat "2024-13-40" = none := by decide
example : dateFromIsoformat "20240101" = none := by decide
example : dateFromIsoformat "2024-W01-1" = none := by decide
example : dateFromIsoformat "2024-02-29" = some ⟨2024, 2, 29⟩ := by decide
example : dateFromIsoformat "2023-02-29" = none := by decide
example : pdDateRangeLeft 0 7200 3600 = [0, 3600] := by decide
example : pdDateRangeLeft 0 0 3600 = [] := by decide
example : validateParams (.val 51) (.val 0) "2024-01-01" "2024-01-02"
    = .ok (⟨2024, 1, 1⟩, ⟨2024, 1, 2⟩) := by decide
example : validateParams (.val 91) (.val 0) "2024-01-01" "2024-01-02"
    = .error latitudeRangeMsg := by decide
example : validateParams .nan (.val 0) "2024-01-01" "2024-01-02"
    = .ok (⟨2024, 1, 1⟩, ⟨2024, 1, 2⟩) := by decide

lemma length_dateFormatMsg (sd ed : String) :
    (dateFormatMsg sd ed).length = 107 + sd.length + ed.length := by
  simp only [dateFormatMsg, String.length_append]
  have h1 : ("Invalid start_date ").length = 19 := rfl
  have h2 : (" or end_date ").length = 13 := rfl
  have h3 : (" found. Please given the start and end dates in ISO format, i.e. YYYY-MM-DD").length = 75 := rfl
  omega

lemma dateOrderMsg_ne_dateFormatMsg (sd ed : String) :
    dateOrderMsg ≠ dateFormatMsg sd ed := by
  intro h
  have hlen := congrArg String.length h
  rw [length_dateFormatMsg] at hlen
  have h0 : dateOrderMsg.length = 37 := rfl
  omega

lemma validateParams_val_inRange (lat lon : ℚ) (sd ed : String)
    (h1 : -90 ≤ lat) (h2 : lat ≤ 90) (h3 : 0 ≤ lon) (h4 : lon ≤ 180) :
    validateParams (.val lat) (.val lon) sd ed =
      match dateFromIsoformat sd with
      | none => .error (dateFormatMsg sd ed)
      | some s =>
        match dateFromIsoformat ed with
        | none => .error (dateFormatMsg sd ed)
        | some e => if dateLtB e s then .error dateOrderMsg else .ok (s, e) := by
  simp only [validateParams, PyFloat.lt, PyFloat.gt]
  rw [if_neg (by simp [decide_eq_false (not_lt.mpr h1), decide_eq_false (not_lt.mpr h2)]),
      if_neg (by simp [decide_eq_false (not_lt.mpr h3), decide_eq_false (not_lt.mpr h4)])]

lemma validate_ok_of_inRange (lat lon : ℚ) (sd ed : String)
    (d1 d2 : PyDate)
    (hlat1 : -90 ≤ lat) (hlat2 : lat ≤ 90)
    (hlon1 : 0 ≤ lon) (hlon2 : lon ≤ 180)
    (hsd : dateFromIsoformat sd = some d1)
    (hed : dateFromIsoformat ed = some d2)
    (hord : dateLtB d2 d1 = false) :
    validateParams (.val lat) (.val lon) sd ed = .ok (d1, d2) := by
  rw [validateParams_val_inRange lat lon sd ed hlat1 hlat2 hlon1 hlon2, hsd, hed]
  simp [hord]

/-- Claim C3: for every latitude in [-90, 90], longitude in [0, 180], and
valid ISO date strings whose parsed end date is not before the parsed
start date, the validator raises no InvalidParameters and returns the
parsed dates (in particular all the boundary values are accepted). -/
theorem C3_valid_inputs_accepted (lat lon : ℚ) (sd ed : String)
    (d1 d2 : PyDate)
    (hlat1 : -90 ≤ lat) (hlat2 : lat ≤ 90)
    (hlon1 : 0 ≤ lon) (hlon2 : lon ≤ 180)
    (hsd : dateFromIsoformat sd = some d1)
    (hed : dateFromIsoformat ed = some d2)
    (hord : dateLtB d2 d1 = false) :
    validateParams (.val lat) (.val lon) sd ed = .ok (d1, d2) :=
  validate_ok_of_inRange lat lon sd ed d1 d2 hlat1 hlat2 hlon1 hlon2 hsd hed hord

/-- Witness for C3, at the boundary values latitude = -90, longitude =
180, and equal start and end dates. -/
theorem C3_valid_inputs_accepted_witness :
    validateParams (.val (-90)) (.val 180) "2024-01-01" "2024-01-01"
      = .ok (⟨2024, 1, 1⟩, ⟨2024, 1, 1⟩) :=
  C3_valid_inputs_accepted (-90) 180 "2024-01-01" "2024-01-01"
    ⟨2024, 1, 1⟩ ⟨2024, 1, 1⟩ (by norm_num) (by norm_num) (by norm_num)
    (by norm_num) (by decide) (by decide) (by decide)

lemma dateLtB_irrefl (d : PyDate) : dateLtB d d = false := by
  simp [dateLtB]

/-- Claim C4: with in-range coordinates, the validator raises
InvalidParameters with the date-format message (which contains both input
strings and the expected YYYY-MM-DD format) exactly when one of the two
date strings is not a valid ISO-8601 calendar date of the form
YYYY-MM-DD. -/
theorem C4_date_format_error (lat lon : ℚ) (sd ed : String)
    (hlat1 : -90 ≤ lat) (hlat2 : lat ≤ 90)
    (hlon1 : 0 ≤ lon) (hlon2 : lon ≤ 180) :
    (validateParams (.val lat) (.val lon) sd ed = .error (dateFormatMsg sd ed)
      ↔ dateFromIsoformat sd = none ∨ dateFromIsoformat ed = none)
    ∧ strContains (dateFormatMsg sd ed) sd
    ∧ strContains (dateFormatMsg sd ed) ed
    ∧ strContains (dateFormatMsg sd ed) "YYYY-MM-DD" := by
  refine ⟨?_, ?_, ?_, ?_⟩
  · rw [validateParams_val_inRange lat lon sd ed hlat1 hlat2 hlon1 hlon2]
    cases hsd : dateFromIsoformat sd with
    | none => simp [hsd]
    | some d1 =>
      cases hed : dateFromIsoformat ed with
      | none => simp [hed]
      | some d2 =>
        cases hlt : dateLtB d2 d1 <;>
          simp [hlt, Except.error.injEq, (dateOrderMsg_ne_dateFormatMsg sd ed)]
  · exact ⟨"Invalid start_date ",
      " or end_date " ++ ed ++
        " found. Please given the start and end dates in ISO format, i.e. YYYY-MM-DD",
      by simp [dateFormatMsg, String.append_assoc]⟩
  · exact ⟨"Invalid start_date " ++ sd ++ " or end_date ",
      " found. Please given the start and end dates in ISO format, i.e. YYYY-MM-DD",
      by simp [dateFormatMsg, String.append_assoc]⟩
  · refine ⟨"Invalid start_date " ++ sd ++ " or end_date " ++ ed ++
      " found. Please given the start and end dates in ISO format, i.e. ", "", ?_⟩
    have htail : (" found. Please given the start and end dates in ISO format, i.e. " ++
        ("YYYY-MM-DD" ++ "" : String)) =
        " found. Please given the start and end dates in ISO format, i.e. YYYY-MM-DD" := by
      decide
    rw [dateFormatMsg, ← htail]
    simp [String.append_assoc]

/-- Witness for C4: the malformed start date 2024-13-40 is rejected with
the date-format message. -/
theorem C4_date_format_error_witness :
    validateParams (.val 0) (.val 0) "2024-13-40" "2024-01-01"
      = .error (dateFormatMsg "2024-13-40" "2024-01-01") :=
  ((C4_date_format_error 0 0 "2024-13-40" "2024-01-01"
      (by norm_num) (by norm_num) (by norm_num) (by norm_num)).1).mpr
    (Or.inl (by decide))

lemma validate_err_of_lat_out (lat : ℚ) (lon : PyFloat) (sd ed : String)
    (hlat : lat < -90 ∨ 90 < lat) :
    validateParams (.val lat) lon sd ed = .error latitudeRangeMsg := by
  simp only [validateParams, PyFloat.lt, PyFloat.gt]
  rw [if_pos]
  rcases hlat with h | h
  · simp [decide_eq_true h]
  · simp [decide_eq_true h]

lemma validate_err_of_lon_out (lat lon : ℚ) (sd ed : String)
    (hlat1 : -90 ≤ lat) (hlat2 : lat ≤ 90) (hlon : lon < 0 ∨ 180 < lon) :
    validateParams (.val lat) (.val lon) sd ed = .error longitudeRangeMsg := by
  simp only [validateParams, PyFloat.lt, PyFloat.gt]
  rw [if_neg (by simp [decide_eq_false (not_lt.mpr hlat1),
        decide_eq_false (not_lt.mpr hlat2)]),
      if_pos]
  rcases hlon with h | h
  · simp [decide_eq_true h]
  · simp [decide_eq_true h]

lemma validate_err_of_bad_format (lat lon : ℚ) (sd ed : String)
    (hlat1 : -90 ≤ lat) (hlat2 : lat ≤ 90)
    (hlon1 : 0 ≤ lon) (hlon2 : lon ≤ 180)
    (hbad : dateFromIsoformat sd = none ∨ dateFromIsoformat ed = none) :
    validateParams (.val lat) (.val lon) sd ed
      = .error (dateFormatMsg sd ed) := by
  rw [validateParams_val_inRange lat lon sd ed hlat1 hlat2 hlon1 hlon2]
  rcases hbad with h | h
  · rw [h]
  · cases hsd : dateFromIsoformat sd with
    | none => rfl
    | some d1 => rw [h]

/-- Claim C5: with in-range latitude, any longitude strictly below 0 or
strictly above 180 (including negative western-hemisphere longitudes) is
rejected with the longitude message, which names longitude; longitude 0
and 180 pass validation. -/
theorem C5_longitude_range (lat lon : ℚ) (sd ed : String) (d1 d2 : PyDate)
    (hlat1 : -90 ≤ lat) (hlat2 : lat ≤ 90) :
    ((lon < 0 ∨ 180 < lon) →
      validateParams (.val lat) (.val lon) sd ed = .error longitudeRangeMsg)
    ∧ strContains longitudeRangeMsg "longitude"
    ∧ (dateFromIsoformat sd = some d1 → dateFromIsoformat ed = some d2 →
        dateLtB d2 d1 = false →
        validateParams (.val lat) (.val 0) sd ed = .ok (d1, d2)
        ∧ validateParams (.val lat) (.val 180) sd ed = .ok (d1, d2)) := by
  refine ⟨?_, ?_, ?_⟩
  · exact validate_err_of_lon_out lat lon sd ed hlat1 hlat2
  · exact ⟨"Invalid ", " given! Longitude must be within 0 to 180", by decide⟩
  · intro hsd hed hord
    exact ⟨validate_ok_of_inRange lat 0 sd ed d1 d2 hlat1 hlat2 le_rfl
        (by norm_num) hsd hed hord,
      validate_ok_of_inRange lat 180 sd ed d1 d2 hlat1 hlat2 (by norm_num)
        le_rfl hsd hed hord⟩

/-- Witness for C5: longitude -1 (western hemisphere) is rejected with the
longitude message. -/
theorem C5_longitude_range_witness :
    validateParams (.val 0) (.val (-1)) "2024-01-01" "2024-01-02"
      = .error longitudeRangeMsg :=
  (C5_longitude_range 0 (-1) "2024-01-01" "2024-01-02" ⟨2024, 1, 1⟩
      ⟨2024, 1, 2⟩ (by norm_num) (by norm_num)).1 (Or.inl (by norm_num))

/-- Claim C6: any latitude strictly below -90 or strictly above 90 is
rejected with the latitude message regardless of every other argument
(even a NaN longitude or malformed dates), the message names latitude, and
latitudes -90 and 90 pass validation. -/
theorem C6_latitude_range (lat : ℚ) (lon : PyFloat) (sd ed : String)
    (d1 d2 : PyDate) :
    ((lat < -90 ∨ 90 < lat) →
      validateParams (.val lat) lon sd ed = .error latitudeRangeMsg)
    ∧ strContains latitudeRangeMsg "latitude"
    ∧ (∀ lon2 : ℚ, 0 ≤ lon2 → lon2 ≤ 180 →
        dateFromIsoformat sd = some d1 → dateFromIsoformat ed = some d2 →
        dateLtB d2 d1 = false →
        validateParams (.val (-90)) (.val lon2) sd ed = .ok (d1, d2)
        ∧ validateParams (.val 90) (.val lon2) sd ed = .ok (d1, d2)) := by
  refine ⟨?_, ?_, ?_⟩
  · exact validate_err_of_lat_out lat lon sd ed
  · exact ⟨"Invalid ", " given! Latitude must be within -90 to 90", by decide⟩
  · intro lon2 hlon1 hlon2 hsd hed hord
    exact ⟨validate_ok_of_inRange (-90) lon2 sd ed d1 d2 le_rfl (by norm_num)
        hlon1 hlon2 hsd hed hord,
      validate_ok_of_inRange 90 lon2 sd ed d1 d2 (by norm_num) le_rfl
        hlon1 hlon2 hsd hed hord⟩

/-- Witness for C6: latitude 91 is rejected with the latitude message even
though the longitude is NaN and the date strings are malformed. -/
theorem C6_latitude_range_witness :
    validateParams (.val 91) .nan "bad" "worse" = .error latitudeRangeMsg :=
  (C6_latitude_range 91 .nan "bad" "worse" ⟨1, 1, 1⟩ ⟨1, 1, 1⟩).1
    (Or.inr (by norm_num))

/-- Claim C7: with in-range coordinates and two well-formed date strings,
the validator raises the end-before-start message exactly when the parsed
end date is strictly earlier than the parsed start date; equal start and
end dates pass validation. -/
theorem C7_date_order (lat lon : ℚ) (sd ed : String) (d1 d2 : PyDate)
    (hlat1 : -90 ≤ lat) (hlat2 : lat ≤ 90)
    (hlon1 : 0 ≤ lon) (hlon2 : lon ≤ 180)
    (hsd : dateFromIsoformat sd = some d1)
    (hed : dateFromIsoformat ed = some d2) :
    (validateParams (.val lat) (.val lon) sd ed = .error dateOrderMsg
      ↔ dateLtB d2 d1 = true)
    ∧ (dateLtB d2 d1 = false →
        validateParams (.val lat) (.val lon) sd ed = .ok (d1, d2))
    ∧ (d1 = d2 → validateParams (.val lat) (.val lon) sd ed = .ok (d1, d2))
    ∧ strContains dateOrderMsg "cannot be before" := by
  refine ⟨?_, ?_, ?_, ?_⟩
  · rw [validateParams_val_inRange lat lon sd ed hlat1 hlat2 hlon1 hlon2,
      hsd, hed]
    cases hlt : dateLtB d2 d1 <;> simp [hlt]
  · intro hord
    exact validate_ok_of_inRange lat lon sd ed d1 d2 hlat1 hlat2 hlon1 hlon2
      hsd hed hord
  · intro heq
    subst heq
    exact validate_ok_of_inRange lat lon sd ed d1 d1 hlat1 hlat2 hlon1 hlon2
      hsd hed (dateLtB_irrefl d1)
  · exact ⟨"End date ", " start date!", by decide⟩

/-- Witness for C7: start 2024-02-01 with end 2024-01-01 is rejected with
the ordering message. -/
theorem C7_date_order_witness :
    validateParams (.val 0) (.val 0) "2024-02-01" "2024-01-01"
      = .error dateOrderMsg :=
  ((C7_date_order 0 0 "2024-02-01" "2024-01-01" ⟨2024, 2, 1⟩ ⟨2024, 1, 1⟩
      (by norm_num) (by norm_num) (by norm_num) (by norm_num)
      (by decide) (by decide)).1).mpr (by decide)

/-- Claim C8: the validation checks run in the order latitude, longitude,
date-format, date-ordering, failing fast with only the first violated
rule's error; and a validation failure determines the function's result
before the provider response is consulted (the same error is returned for
every response, with no other effect). -/
theorem C8_fail_fast_order :
    (∀ (lat : ℚ) (lon : PyFloat) (sd ed : String), (lat < -90 ∨ 90 < lat) →
      validateParams (.val lat) lon sd ed = .error latitudeRangeMsg)
    ∧ (∀ (lat lon : ℚ) (sd ed : String), -90 ≤ lat → lat ≤ 90 →
        (lon < 0 ∨ 180 < lon) →
        validateParams (.val lat) (.val lon) sd ed = .error longitudeRangeMsg)
    ∧ (∀ (lat lon : ℚ) (sd ed : String), -90 ≤ lat → lat ≤ 90 →
        0 ≤ lon → lon ≤ 180 →
        (dateFromIsoformat sd = none ∨ dateFromIsoformat ed = none) →
        validateParams (.val lat) (.val lon) sd ed
          = .error (dateFormatMsg sd ed))
    ∧ (∀ (lat lon : PyFloat) (sd ed : String) (fields : List String)
        (resp : HourlyResponse) (m : String),
        validateParams lat lon sd ed = .error m →
        get_historical_weather_at_given_coordinates lat lon sd ed fields resp
          = .error m) := by
  refine ⟨?_, ?_, ?_, ?_⟩
  · exact fun lat lon sd ed h => validate_err_of_lat_out lat lon sd ed h
  · exact fun lat lon sd ed h1 h2 h => validate_err_of_lon_out lat lon sd ed h1 h2 h
  · exact fun lat lon sd ed h1 h2 h3 h4 h =>
      validate_err_of_bad_format lat lon sd ed h1 h2 h3 h4 h
  · intro lat lon sd ed fields resp m h
    simp [get_historical_weather_at_given_coordinates, h]

/-- Witness for C8: latitude 91 together with an out-of-range longitude
and malformed dates yields only the latitude error, also from the full
function with an arbitrary response. -/
theorem C8_fail_fast_order_witness :
    validateParams (.val 91) (.val 181) "nonsense" "2024-99-99"
        = .error latitudeRangeMsg
      ∧ get_historical_weather_at_given_coordinates (.val 91) (.val 181)
          "nonsense" "2024-99-99" ["snowfall"] ⟨0, 0, 0, []⟩
        = .error latitudeRangeMsg := by
  have h := C8_fail_fast_order.1 91 (.val 181) "nonsense" "2024-99-99"
    (Or.inr (by norm_num))
  exact ⟨h, C8_fail_fast_order.2.2.2 (.val 91) (.val 181) "nonsense"
    "2024-99-99" ["snowfall"] ⟨0, 0, 0, []⟩ latitudeRangeMsg h⟩

/-- Claim C10: a NaN latitude (or NaN longitude) passes validation, since
both range comparisons evaluate false for NaN, and with the other
parameters valid the function proceeds to the provider request and
reshapes whatever response comes back. -/
theorem C10_nan_passes_validation (lat lon : ℚ) (sd ed : String)
    (d1 d2 : PyDate)
    (hlat1 : -90 ≤ lat) (hlat2 : lat ≤ 90)
    (hlon1 : 0 ≤ lon) (hlon2 : lon ≤ 180)
    (hsd : dateFromIsoformat sd = some d1)
    (hed : dateFromIsoformat ed = some d2)
    (hord : dateLtB d2 d1 = false) :
    validateParams .nan (.val lon) sd ed = .ok (d1, d2)
    ∧ validateParams (.val lat) .nan sd ed = .ok (d1, d2)
    ∧ (∀ (fields : List String) (resp : HourlyResponse),
        get_historical_weather_at_given_coordinates .nan (.val lon) sd ed
          fields resp = reshapeHourly resp) := by
  have hnanlat : validateParams .nan (.val lon) sd ed = .ok (d1, d2) := by
    simp only [validateParams, PyFloat.lt, PyFloat.gt]
    rw [if_neg (by simp),
        if_neg (by simp [decide_eq_false (not_lt.mpr hlon1),
          decide_eq_false (not_lt.mpr hlon2)]),
        hsd, hed]
    simp [hord]
  refine ⟨hnanlat, ?_, ?_⟩
  · simp only [validateParams, PyFloat.lt, PyFloat.gt]
    rw [if_neg (by simp [decide_eq_false (not_lt.mpr hlat1),
          decide_eq_false (not_lt.mpr hlat2)]),
        if_neg (by simp), hsd, hed]
    simp [hord]
  · intro fields resp
    simp [get_historical_weather_at_given_coordinates, hnanlat]

/-- Witness for C10: NaN latitude with valid remaining parameters passes
validation. -/
theorem C10_nan_passes_validation_witness :
    validateParams .nan (.val 0) "2024-01-01" "2024-01-02"
      = .ok (⟨2024, 1, 1⟩, ⟨2024, 1, 2⟩) :=
  (C10_nan_passes_validation 0 0 "2024-01-01" "2024-01-02" ⟨2024, 1, 1⟩
    ⟨2024, 1, 2⟩ (by norm_num) (by norm_num) (by norm_num) (by norm_num)
    (by decide) (by decide) (by decide)).1

lemma pdDateRangeLeft_grid (T0 s : Int) (N : Nat) (hs : 0 < s) :
    pdDateRangeLeft T0 (T0 + N * s) s
      = (List.range N).map (fun i : Nat => T0 + (i : Int) * s) := by
  have hcount : pdDateRangeLeftCount T0 (T0 + N * s) s = N := by
    unfold pdDateRangeLeftCount
    rcases Nat.eq_zero_or_pos N with h0 | hpos
    · subst h0; simp
    · have hN : (0 : Int) < (N : Int) := by exact_mod_cast hpos
      have hNs : (0 : Int) < (N : Int) * s := mul_pos hN hs
      rw [if_neg (by linarith), add_sub_cancel_left,
        if_pos (Int.mul_emod_left _ _),
        Int.mul_ediv_cancel _ (ne_of_gt hs), Int.toNat_natCast]
  unfold pdDateRangeLeft
  rw [hcount]

lemma mkDataFrame_ok (dates : List Int) (cols : List (String × List ℚ))
    (df : DataFrame) (h : mkDataFrame dates cols = .ok df) :
    df.dateCol = dates ∧ df.cols = cols
      ∧ ∀ col ∈ cols, col.2.length = dates.length := by
  unfold mkDataFrame at h
  by_cases hc : cols.all (fun c => c.2.length == dates.length)
  · rw [if_pos hc] at h
    cases h
    refine ⟨rfl, rfl, ?_⟩
    intro col hmem
    exact eq_of_beq (List.all_eq_true.mp hc col hmem)
  · rw [if_neg hc] at h
    cases h

/-- Claim C2: a provider hourly response with time_start T0, interval s,
time_end T0 + N*s and three value arrays of length N reshapes into a table
of exactly N rows whose row i carries timestamp T0 + i*s, in ascending
generation order with time_end excluded, and whose field values are the
positional entries of the source arrays. -/
theorem C2_reshape_grid (T0 s : Int) (N : Nat) (a b c : List ℚ)
    (hs : 0 < s) (ha : a.length = N) (hb : b.length = N)
    (hc : c.length = N) :
    ∃ df : DataFrame,
      reshapeHourly ⟨T0, T0 + N * s, s, [a, b, c]⟩ = .ok df
      ∧ df.dateCol = (List.range N).map (fun i : Nat => T0 + (i : Int) * s)
      ∧ df.dateCol.length = N
      ∧ (∀ i : Nat, i < N → df.dateCol[i]? = some (T0 + (i : Int) * s))
      ∧ List.Pairwise (· < ·) df.dateCol
      ∧ df.cols = [("snowfall", a), ("wind_speed_10m", b),
          ("wind_gusts_10m", c)]
      ∧ (∀ col ∈ df.cols, col.2.length = N) := by
  have hgrid := pdDateRangeLeft_grid T0 s N hs
  have hlen : (pdDateRangeLeft T0 (T0 + N * s) s).length = N := by
    rw [hgrid, List.length_map, List.length_range]
  refine ⟨⟨pdDateRangeLeft T0 (T0 + N * s) s,
    [("snowfall", a), ("wind_speed_10m", b), ("wind_gusts_10m", c)]⟩,
    ?_, hgrid, hlen, ?_, ?_, rfl, ?_⟩
  · simp [reshapeHourly, mkDataFrame, hlen, ha, hb, hc]
  · intro i hi
    simp only [hgrid, List.getElem?_map, List.getElem?_range hi, Option.map_some']
  · rw [hgrid]
    refine List.Pairwise.map _ ?_ (List.pairwise_lt_range N)
    intro i j hij
    have hij2 : (i : Int) < (j : Int) := by exact_mod_cast hij
    have := mul_lt_mul_of_pos_right hij2 hs
    linarith
  · intro col hmem
    simp only [List.mem_cons, List.mem_singleton] at hmem
    rcases hmem with h | h | h | h
    · rw [h]; exact ha
    · rw [h]; exact hb
    · rw [h]; exact hc
    · cases h

/-- Witness for C2: a two-row hourly fixture with interval 3600 s. -/
theorem C2_reshape_grid_witness :
    ∃ df : DataFrame,
      reshapeHourly ⟨0, 0 + (2 : Nat) * 3600, 3600, [[1, 2], [3, 4], [5, 6]]⟩
        = .ok df
      ∧ df.dateCol = [0, 3600]
      ∧ df.cols = [("snowfall", [1, 2]), ("wind_speed_10m", [3, 4]),
          ("wind_gusts_10m", [5, 6])] := by
  obtain ⟨df, h1, h2, -, -, -, h6, -⟩ :=
    C2_reshape_grid 0 3600 2 [1, 2] [3, 4] [5, 6] (by norm_num) rfl rfl rfl
  exact ⟨df, h1, by rw [h2]; decide, h6⟩

/-- Claim C9: a length mismatch between the per-field arrays and the
generated timestamp sequence is not detected up front but surfaces as the
error the table-assembly step itself raises, and a successfully returned
table is always complete: every field column has exactly as many entries
as there are rows. -/
theorem C9_no_partial_table :
    (∀ (resp : HourlyResponse) (df : DataFrame),
      reshapeHourly resp = .ok df →
      ∀ col ∈ df.cols, col.2.length = df.dateCol.length)
    ∧ (∀ (t te iv : Int) (a b c : List ℚ),
        (a.length ≠ (pdDateRangeLeft t te iv).length
          ∨ b.length ≠ (pdDateRangeLeft t te iv).length
          ∨ c.length ≠ (pdDateRangeLeft t te iv).length) →
        ∃ m, reshapeHourly ⟨t, te, iv, [a, b, c]⟩ = .error m) := by
  constructor
  · intro resp df h
    unfold reshapeHourly at h
    cases h0 : resp.hourlyVars[0]? with
    | none => rw [h0] at h; cases h
    | some v0 =>
      cases h1 : resp.hourlyVars[1]? with
      | none => rw [h0, h1] at h; cases h
      | some v1 =>
        cases h2 : resp.hourlyVars[2]? with
        | none => rw [h0, h1, h2] at h; cases h
        | some v2 =>
          rw [h0, h1, h2] at h
          obtain ⟨hdates, hcols, hall⟩ := mkDataFrame_ok _ _ _ h
          intro col hmem
          rw [hdates]
          exact hall col (hcols ▸ hmem)
  · intro t te iv a b c hmis
    refine ⟨"All arrays must be of the same length", ?_⟩
    have : ¬ ([("snowfall", a), ("wind_speed_10m", b),
        ("wind_gusts_10m", c)].all
          (fun col => col.2.length == (pdDateRangeLeft t te iv).length)
        = true) := by
      simp only [List.all_cons, List.all_nil, Bool.and_true, Bool.and_eq_true,
        beq_iff_eq]
      rcases hmis with h | h | h
      · exact fun hh => h hh.1
      · exact fun hh => h hh.2.1
      · exact fun hh => h hh.2.2
    simp only [reshapeHourly, List.getElem?_cons_zero, List.getElem?_cons_succ,
      mkDataFrame]
    rw [if_neg this]

/-- Witness for C9: a fixture whose first array is shorter than the
two-slot timestamp grid fails table assembly with the pandas length
error. -/
theorem C9_no_partial_table_witness :
    ∃ m, reshapeHourly ⟨0, 7200, 3600, [[1], [3, 4], [5, 6]]⟩ = .error m :=
  C9_no_partial_table.2 0 7200 3600 [1] [3, 4] [5, 6] (Or.inl (by decide))

/-- Claim C1 counterexample evidence: with a non-default requested field
list the code still reads response variables 0-2 and still names the
columns snowfall, wind_speed_10m, wind_gusts_10m, so the returned table's
columns do not follow the request; and when the provider answers a
one-field request with exactly one value array, indexing variables 1 and 2
fails instead of producing a one-column table. -/
theorem C1_requested_fields_ignored :
    (∃ df : DataFrame,
      get_historical_weather_at_given_coordinates (.val 51) (.val 0)
          "2024-01-01" "2024-01-02" ["visibility"]
          ⟨0, 7200, 3600, [[1, 2], [3, 4], [5, 6]]⟩
        = .ok df
      ∧ df.columnNames = ["date", "snowfall", "wind_speed_10m",
          "wind_gusts_10m"]
      ∧ df.columnNames ≠ ["date", "visibility"])
    ∧ get_historical_weather_at_given_coordinates (.val 51) (.val 0)
        "2024-01-01" "2024-01-02" ["visibility"] ⟨0, 7200, 3600, [[1, 2]]⟩
      = .error "hourly variable index out of range" := by
  constructor
  · refine ⟨⟨[0, 3600], [("snowfall", [1, 2]), ("wind_speed_10m", [3, 4]),
      ("wind_gusts_10m", [5, 6])]⟩, by decide, by decide, by decide⟩
  · decide
